import Mathlib

/-!
Shallow embedding of the theme and responsive-layout coordinators of the
repository (static/js/theme-toggle.js, static/js/theme.js and the unnamed
responsive-layout file), together with theorems settling the frozen claims.

The Theme Coordinator is modelled from `static/js/theme-toggle.js` (the
stateful variant, whose `ThemeManager` keeps `currentTheme` as a field and
validates its argument).  The DOM surface it touches (the `data-theme`
attribute of the document element, the toggle button UI, `localStorage`,
and the `themeChanged` CustomEvent stream) is represented explicitly as
fields of a state record, and each method becomes a state transformer.
-/

namespace ThemeToggle

/-- One entry of the `ThemeManager.themes` configuration object
(`name`, `icon`, `class` — `class` is rendered `cls` since it is a Lean
keyword). -/
structure ThemeConfig where
  name : String
  icon : String
  cls : String
deriving DecidableEq, Repr

/-- The `themes` lookup object of theme-toggle.js: keys `light` and `dark`;
`themes[t]` is `undefined` (here `none`) for any other string. -/
def themes (t : String) : Option ThemeConfig :=
  if t = "light" then some ⟨"浅色模式", "bi-sun-fill", ""⟩
  else if t = "dark" then some ⟨"深色模式", "bi-moon-fill", "dark"⟩
  else none

/-- The observable state touched by the theme manager of theme-toggle.js:
* `currentTheme` — the `this.currentTheme` field (initialised `'light'`);
* `docDark` — whether `document.documentElement` carries `data-theme="dark"`;
* `storage` — the `localStorage` entry under key `theme` (`none` = absent);
* `btnExists` — whether `document.getElementById('themeToggle')` finds a node;
* `uiTheme` — the theme the toggle button's icon/label currently display;
* `events` — the stream of `themeChanged` events dispatched so far
  (each carries its `detail.theme` payload). -/
structure TMState where
  currentTheme : String
  docDark : Bool
  storage : Option String
  btnExists : Bool
  uiTheme : String
  events : List String
deriving DecidableEq, Repr

/-- `ThemeManager.updateUI`: looks up `#themeToggle` and returns if absent;
otherwise repaints icon/label from `themes[this.currentTheme]`. -/
def updateUI (s : TMState) : TMState :=
  if s.btnExists then { s with uiTheme := s.currentTheme } else s

/-- `ThemeManager.dispatchThemeChange`: dispatches a `themeChanged`
CustomEvent carrying the theme value. -/
def dispatchThemeChange (s : TMState) (theme : String) : TMState :=
  { s with events := s.events ++ [theme] }

/-- `ThemeManager.setTheme(theme, save = true)` of theme-toggle.js:
returns early when `themes[theme]` is falsy; otherwise removes the
`data-theme` attribute when the old theme was `'dark'`, sets it when the
new theme is `'dark'`, records `currentTheme`, writes `localStorage` when
`save`, repaints the UI and dispatches `themeChanged`. -/
def setTheme (s : TMState) (theme : String) (save : Bool) : TMState :=
  if (themes theme).isNone then s
  else
    let s1 := if s.currentTheme = "dark" then { s with docDark := false } else s
    let s2 := if theme = "dark" then { s1 with docDark := true } else s1
    let s3 := { s2 with currentTheme := theme }
    let s4 := if save then { s3 with storage := some theme } else s3
    dispatchThemeChange (updateUI s4) theme

/-- `ThemeManager.toggleTheme`: complements `currentTheme` and calls
`setTheme` with the default `save = true`. -/
def toggleTheme (s : TMState) : TMState :=
  setTheme s (if s.currentTheme = "light" then "dark" else "light") true

/-- `ThemeManager.getCurrentTheme`: returns `this.currentTheme`. -/
def getCurrentTheme (s : TMState) : String :=
  s.currentTheme

/-- JavaScript truthiness of `localStorage.getItem('theme')`: `null`
(absent key) and the empty string are falsy, every other string truthy. -/
def storedTruthy : Option String → Bool
  | none => false
  | some v => v != ""

/-- The `(prefers-color-scheme: dark)` change listener wired in
`bindEvents`: when `localStorage.getItem('theme')` is falsy it calls
`setTheme(e.matches ? 'dark' : 'light')` with the default `save = true`;
otherwise it does nothing. -/
def osChange (s : TMState) (mq : Bool) : TMState :=
  if storedTruthy s.storage then s
  else setTheme s (if mq then "dark" else "light") true

/-- `setTheme` with a fallible `localStorage.setItem` (the source wraps the
write in no try/catch, so a storage failure raises at exactly that point):
`.error` carries the state at the moment the exception escapes — the
`data-theme` attribute and `currentTheme` already updated, the storage,
UI and event stream untouched. `storageOk = true` is the non-throwing
environment. -/
def setThemeE (s : TMState) (theme : String) (save : Bool) (storageOk : Bool) :
    Except TMState TMState :=
  if (themes theme).isNone then .ok s
  else
    let s1 := if s.currentTheme = "dark" then { s with docDark := false } else s
    let s2 := if theme = "dark" then { s1 with docDark := true } else s1
    let s3 := { s2 with currentTheme := theme }
    if save && !storageOk then .error s3
    else
      let s4 := if save then { s3 with storage := some theme } else s3
      .ok (dispatchThemeChange (updateUI s4) theme)

/-- The events that can drive the theme manager after load: a direct
`setTheme` call, a click on the toggle control (`toggleTheme`), and a
change of the OS color-scheme preference.  theme-toggle.js exposes no
operation that clears the stored preference. -/
inductive TMEvent where
  | set (t : String) (save : Bool)
  | toggle
  | os (mq : Bool)
deriving DecidableEq, Repr

/-- One step of the theme manager. -/
def step (s : TMState) : TMEvent → TMState
  | .set t save => setTheme s t save
  | .toggle => toggleTheme s
  | .os m => osChange s m

/-- A run of the theme manager over a list of events. -/
def run (s : TMState) (evs : List TMEvent) : TMState :=
  evs.foldl step s

/-- The state the manager object starts from on a fresh page: the literal
field `currentTheme: 'light'`, no `data-theme` attribute on a fresh
document, whatever `localStorage` and toggle-button markup the page
brings. -/
def initState (stored : Option String) (btn : Bool) (ui0 : String) : TMState :=
  { currentTheme := "light", docDark := false, storage := stored,
    btnExists := btn, uiTheme := ui0, events := [] }

/-- Reachability invariant: `currentTheme` is always a valid theme and the
`data-theme="dark"` attribute is present exactly when it is `'dark'`. -/
def ThemeInv (s : TMState) : Prop :=
  (s.currentTheme = "light" ∧ s.docDark = false) ∨
  (s.currentTheme = "dark" ∧ s.docDark = true)

end ThemeToggle

/-!
Shallow embedding of the Responsive Layout Coordinator (the unnamed
responsive-optimisation file: `ResponsiveManager`, the free functions
`setSidebarVisibility` and `toggleSidebar`).  The DOM surface the
coordinator touches is a record: sidebar/overlay class lists become
booleans per known class, the inline styles the policies assign become
string fields (`""` = the style removed / default), and the table-wrapper
insertion of `optimizeTablesForMobile` is tracked by the total number of
wrapper `<div>`s created around the page's tables.
-/

namespace Responsive

/-- The three device classes of `ResponsiveManager.currentDevice`. -/
inductive Device where
  | mobile
  | tablet
  | desktop
deriving DecidableEq, Repr

/-- The `ResponsiveManager.breakpoints` configuration object. -/
structure Breakpoints where
  mobile : Nat
  tablet : Nat
  desktop : Nat
deriving DecidableEq, Repr

/-- `breakpoints: { mobile: 768, tablet: 1024, desktop: 1200 }`. -/
def breakpoints : Breakpoints :=
  { mobile := 768, tablet := 1024, desktop := 1200 }

/-- `ResponsiveManager.detectDevice` as the pure classification it computes
from `window.innerWidth`: `width < 768 → mobile`, else
`width < 1024 → tablet`, else `desktop`. -/
def detectDevice (width : Nat) : Device :=
  if width < breakpoints.mobile then Device.mobile
  else if width < breakpoints.tablet then Device.tablet
  else Device.desktop

/-- The document state the layout coordinator reads and writes:
* `width` — `window.innerWidth`;
* `sidebarExists` / `overlayExists` — whether the sidebar and the
  `#sidebarOverlay` elements are present on the page;
* `sidebarOpen`, `sidebarShow`, `sidebarCompact` — the sidebar's `open`,
  `show` and `compact` classes;
* `overlayVisible` — the overlay's `visible` class;
* `bodySidebarOpen`, `bodyMobile`, `bodyTablet`, `bodyDesktop` — the
  body's `sidebar-open`, `mobile-device`, `tablet-device` and
  `desktop-device` classes;
* `numTables` — how many `.table` elements the page holds;
* `tableResponsive` — whether the tables carry `table-responsive`;
* `tableWrappers` — how many `table-wrapper` divs have been inserted
  around tables so far (each `optimizeTablesForMobile` run adds one per
  table);
* card/stat-card/button inline styles as assigned by the policies
  (`""` = the property cleared / left default). -/
structure Doc where
  width : Nat
  sidebarExists : Bool
  overlayExists : Bool
  sidebarOpen : Bool
  sidebarShow : Bool
  sidebarCompact : Bool
  overlayVisible : Bool
  bodySidebarOpen : Bool
  bodyMobile : Bool
  bodyTablet : Bool
  bodyDesktop : Bool
  numTables : Nat
  tableResponsive : Bool
  tableWrappers : Nat
  cardMargin : String
  cardPadding : String
  statCardMargin : String
  statCardPadding : String
  btnPadding : String
  btnFont : String
  btnMinHeight : String
deriving DecidableEq, Repr

/-- The free function `setSidebarVisibility(shouldOpen)`: returns if the
sidebar element is absent; otherwise toggles the sidebar's `open`/`show`
classes to `shouldOpen`, computes `isMobile = window.innerWidth <= 1024`,
toggles the overlay's `visible` class to `shouldOpen && isMobile` when the
overlay exists, and sets the body's `sidebar-open` class to
`shouldOpen && isMobile`. -/
def setSidebarVisibility (doc : Doc) (shouldOpen : Bool) : Doc :=
  if doc.sidebarExists = false then doc
  else
    let d1 := { doc with sidebarOpen := shouldOpen, sidebarShow := shouldOpen }
    let isMobile : Bool := decide (d1.width ≤ 1024)
    let d2 :=
      if d1.overlayExists then { d1 with overlayVisible := shouldOpen && isMobile } else d1
    if shouldOpen && isMobile then { d2 with bodySidebarOpen := true }
    else { d2 with bodySidebarOpen := false }

/-- The free function `toggleSidebar(force)`: returns if the sidebar is
absent; takes `force` when it is a boolean (here `some b`), otherwise the
complement of the sidebar's `open` class, and calls
`setSidebarVisibility`. -/
def toggleSidebar (doc : Doc) (force : Option Bool) : Doc :=
  if doc.sidebarExists = false then doc
  else
    let shouldOpen :=
      match force with
      | some b => b
      | none => !doc.sidebarOpen
    setSidebarVisibility doc shouldOpen

/-- `ResponsiveManager.hideSidebar`: `window.toggleSidebar(false)`. -/
def hideSidebar (doc : Doc) : Doc :=
  toggleSidebar doc (some false)

/-- `ResponsiveManager.showFullSidebar`: returns if the sidebar is absent;
removes its `compact` class and calls `window.toggleSidebar(true)`. -/
def showFullSidebar (doc : Doc) : Doc :=
  if doc.sidebarExists = false then doc
  else toggleSidebar { doc with sidebarCompact := false } (some true)

/-- `ResponsiveManager.optimizeCardsForMobile`: fixed inline margins and
paddings on every card and stat card. -/
def optimizeCardsForMobile (doc : Doc) : Doc :=
  { doc with cardMargin := "1rem", cardPadding := "1rem",
             statCardMargin := "1rem", statCardPadding := "1.5rem" }

/-- `ResponsiveManager.optimizeCardsForTablet`. -/
def optimizeCardsForTablet (doc : Doc) : Doc :=
  { doc with cardMargin := "1.5rem", cardPadding := "1.5rem" }

/-- `ResponsiveManager.optimizeButtonsForMobile`. -/
def optimizeButtonsForMobile (doc : Doc) : Doc :=
  { doc with btnPadding := "0.75rem 1rem", btnFont := "1rem", btnMinHeight := "44px" }

/-- `ResponsiveManager.optimizeButtonsForTablet`. -/
def optimizeButtonsForTablet (doc : Doc) : Doc :=
  { doc with btnPadding := "0.625rem 1.25rem", btnFont := "0.875rem" }

/-- `ResponsiveManager.optimizeTablesForMobile`: for every `.table`
element, adds the `table-responsive` class and inserts a NEW
`table-wrapper` div around the table — each run of the loop creates one
fresh wrapper per table, nesting inside any wrapper added by a previous
run. -/
def optimizeTablesForMobile (doc : Doc) : Doc :=
  if doc.numTables = 0 then doc
  else { doc with tableResponsive := true,
                  tableWrappers := doc.tableWrappers + doc.numTables }

/-- `ResponsiveManager.restoreDefaultLayout`: clears card and button
inline styles (not the stat-card ones) and removes the
`mobile-device`/`tablet-device` body classes. -/
def restoreDefaultLayout (doc : Doc) : Doc :=
  { doc with cardMargin := "", cardPadding := "",
             btnPadding := "", btnFont := "", btnMinHeight := "",
             bodyMobile := false, bodyTablet := false }

/-- `ResponsiveManager.optimizeForMobile`: hide the sidebar, apply the
mobile card/button/table optimisations, and set the body's class to
`mobile-device` exclusively. -/
def optimizeForMobile (doc : Doc) : Doc :=
  let d1 := hideSidebar doc
  let d2 := optimizeCardsForMobile d1
  let d3 := optimizeButtonsForMobile d2
  let d4 := optimizeTablesForMobile d3
  { d4 with bodyMobile := true, bodyTablet := false, bodyDesktop := false }

/-- `ResponsiveManager.optimizeForTablet`: show the full sidebar, apply
the tablet card/button optimisations, and set the body's class to
`tablet-device` exclusively. -/
def optimizeForTablet (doc : Doc) : Doc :=
  let d1 := showFullSidebar doc
  let d2 := optimizeCardsForTablet d1
  let d3 := optimizeButtonsForTablet d2
  { d3 with bodyTablet := true, bodyMobile := false, bodyDesktop := false }

/-- `ResponsiveManager.optimizeForDesktop`: show the full sidebar, restore
the default layout, and set the body's class to `desktop-device`
exclusively. -/
def optimizeForDesktop (doc : Doc) : Doc :=
  let d1 := showFullSidebar doc
  let d2 := restoreDefaultLayout d1
  { d2 with bodyDesktop := true, bodyMobile := false, bodyTablet := false }

/-- The responsive manager's state: its `currentDevice` field, the
document, and the log of layout-policy invocations performed by
`optimizeForDevice` (one entry per dispatch, recording which policy
ran). -/
structure RMState where
  currentDevice : Device
  doc : Doc
  policyLog : List Device
deriving DecidableEq, Repr

/-- `ResponsiveManager.optimizeForDevice`: dispatches on `currentDevice`
to the matching layout policy. -/
def optimizeForDevice (s : RMState) : RMState :=
  match s.currentDevice with
  | Device.mobile =>
      { s with doc := optimizeForMobile s.doc, policyLog := s.policyLog ++ [Device.mobile] }
  | Device.tablet =>
      { s with doc := optimizeForTablet s.doc, policyLog := s.policyLog ++ [Device.tablet] }
  | Device.desktop =>
      { s with doc := optimizeForDesktop s.doc, policyLog := s.policyLog ++ [Device.desktop] }

/-- `ResponsiveManager.handleResize` at a (debounced) resize event that
left `window.innerWidth` at `width`: remembers the old device, reruns
`detectDevice`, and invokes `optimizeForDevice` exactly when the device
class changed. -/
def handleResize (s : RMState) (width : Nat) : RMState :=
  let oldDevice := s.currentDevice
  let s1 : RMState :=
    { s with doc := { s.doc with width := width }, currentDevice := detectDevice width }
  if oldDevice ≠ s1.currentDevice then optimizeForDevice s1 else s1

end Responsive

/-!
Lemmas about the theme manager, followed by the theorems settling the
claims about the Theme Coordinator.
-/

namespace ThemeToggle

theorem themes_light : themes "light" = some ⟨"浅色模式", "bi-sun-fill", ""⟩ := by
  decide

theorem themes_dark : themes "dark" = some ⟨"深色模式", "bi-moon-fill", "dark"⟩ := by
  decide

theorem themes_eq_some (t : String) (c : ThemeConfig) (h : themes t = some c) :
    t = "light" ∨ t = "dark" := by
  by_cases h1 : t = "light"
  · exact Or.inl h1
  by_cases h2 : t = "dark"
  · exact Or.inr h2
  simp [themes, h1, h2] at h

theorem setTheme_invalid (s : TMState) (t : String) (save : Bool) (h : themes t = none) :
    setTheme s t save = s := by
  simp [setTheme, h]

theorem setTheme_valid_eq (s : TMState) (t : String) (c : ThemeConfig) (save : Bool)
    (hc : themes t = some c) :
    setTheme s t save =
      { currentTheme := t,
        docDark := if t = "dark" then true
                   else if s.currentTheme = "dark" then false else s.docDark,
        storage := if save then some t else s.storage,
        btnExists := s.btnExists,
        uiTheme := if s.btnExists then t else s.uiTheme,
        events := s.events ++ [t] } := by
  simp only [setTheme, hc, Option.isNone_some, Bool.false_eq_true, if_false,
    updateUI, dispatchThemeChange]
  split_ifs <;> rfl

theorem setTheme_light (s : TMState) (save : Bool) :
    setTheme s "light" save =
      { currentTheme := "light",
        docDark := if s.currentTheme = "dark" then false else s.docDark,
        storage := if save then some "light" else s.storage,
        btnExists := s.btnExists,
        uiTheme := if s.btnExists then "light" else s.uiTheme,
        events := s.events ++ ["light"] } := by
  rw [setTheme_valid_eq s "light" _ save themes_light,
    if_neg (by decide : ¬("light" = "dark"))]

theorem setTheme_dark (s : TMState) (save : Bool) :
    setTheme s "dark" save =
      { currentTheme := "dark",
        docDark := true,
        storage := if save then some "dark" else s.storage,
        btnExists := s.btnExists,
        uiTheme := if s.btnExists then "dark" else s.uiTheme,
        events := s.events ++ ["dark"] } := by
  rw [setTheme_valid_eq s "dark" _ save themes_dark, if_pos rfl]

theorem storedTruthy_some_valid {t : String} (h : t = "light" ∨ t = "dark") :
    storedTruthy (some t) = true := by
  rcases h with h | h <;> subst h <;> decide

theorem storedTruthy_step (s : TMState) (e : TMEvent)
    (h : storedTruthy s.storage = true) :
    storedTruthy (step s e).storage = true := by
  cases e with
  | set t save =>
      cases hc : themes t with
      | none =>
          show storedTruthy (setTheme s t save).storage = true
          rw [setTheme_invalid s t save hc]; exact h
      | some c =>
          show storedTruthy (setTheme s t save).storage = true
          rw [setTheme_valid_eq s t c save hc]
          cases save
          · exact h
          · exact storedTruthy_some_valid (themes_eq_some t c hc)
  | toggle =>
      show storedTruthy (toggleTheme s).storage = true
      rw [toggleTheme]
      by_cases hl : s.currentTheme = "light"
      · rw [if_pos hl, setTheme_dark]
        show storedTruthy (some "dark") = true
        decide
      · rw [if_neg hl, setTheme_light]
        show storedTruthy (some "light") = true
        decide
  | os m =>
      show storedTruthy (osChange s m).storage = true
      rw [osChange, if_pos h]; exact h

theorem storedTruthy_run (evs : List TMEvent) :
    ∀ s : TMState, storedTruthy s.storage = true →
      storedTruthy (run s evs).storage = true := by
  induction evs with
  | nil => intro s h; exact h
  | cons e evs ih =>
      intro s h
      show storedTruthy (List.foldl step (step s e) evs).storage = true
      exact ih (step s e) (storedTruthy_step s e h)

theorem osChange_of_truthy (s : TMState) (m : Bool)
    (h : storedTruthy s.storage = true) : osChange s m = s := by
  rw [osChange, if_pos h]

theorem themeInv_setTheme (s : TMState) (t : String) (save : Bool)
    (h : ThemeInv s) : ThemeInv (setTheme s t save) := by
  cases hc : themes t with
  | none => rw [setTheme_invalid s t save hc]; exact h
  | some c =>
      rcases themes_eq_some t c hc with hv | hv <;> subst hv
      · rw [setTheme_light]
        left
        refine ⟨rfl, ?_⟩
        rcases h with ⟨h1, h2⟩ | ⟨h1, h2⟩ <;> simp [h1, h2]
      · rw [setTheme_dark]
        right
        exact ⟨rfl, rfl⟩

theorem themeInv_step (s : TMState) (e : TMEvent) (h : ThemeInv s) :
    ThemeInv (step s e) := by
  cases e with
  | set t save => exact themeInv_setTheme s t save h
  | toggle => exact themeInv_setTheme s _ true h
  | os m =>
      show ThemeInv (osChange s m)
      rw [osChange]
      split
      · exact h
      · exact themeInv_setTheme s _ true h

theorem themeInv_run (evs : List TMEvent) :
    ∀ s : TMState, ThemeInv s → ThemeInv (run s evs) := by
  induction evs with
  | nil => intro s h; exact h
  | cons e evs ih =>
      intro s h
      exact ih (step s e) (themeInv_step s e h)

theorem themeInv_init (stored : Option String) (btn : Bool) (ui0 : String) :
    ThemeInv (initState stored btn ui0) :=
  Or.inl ⟨rfl, rfl⟩

theorem setTheme_currentTheme (s : TMState) (t : String) (c : ThemeConfig) (save : Bool)
    (hc : themes t = some c) : (setTheme s t save).currentTheme = t := by
  rw [setTheme_valid_eq s t c save hc]

theorem toggle_of_light (s : TMState) (h1 : s.currentTheme = "light") :
    toggleTheme s = setTheme s "dark" true := by
  rw [toggleTheme, if_pos h1]

theorem toggle_of_dark (s : TMState) (h1 : s.currentTheme = "dark") :
    toggleTheme s = setTheme s "light" true := by
  rw [toggleTheme, if_neg (by rw [h1]; decide)]

theorem toggleTheme_toggleTheme (s : TMState) (h : ThemeInv s) :
    (toggleTheme (toggleTheme s)).currentTheme = s.currentTheme ∧
    (toggleTheme (toggleTheme s)).docDark = s.docDark := by
  rcases h with ⟨h1, h2⟩ | ⟨h1, h2⟩
  · rw [toggle_of_light s h1,
      toggle_of_dark (setTheme s "dark" true)
        (setTheme_currentTheme s "dark" _ true themes_dark)]
    constructor
    · rw [setTheme_currentTheme _ "light" _ true themes_light, h1]
    · rw [setTheme_light, setTheme_currentTheme s "dark" _ true themes_dark]
      rw [if_pos rfl, h2]
  · rw [toggle_of_dark s h1,
      toggle_of_light (setTheme s "light" true)
        (setTheme_currentTheme s "light" _ true themes_light)]
    constructor
    · rw [setTheme_currentTheme _ "dark" _ true themes_dark, h1]
    · rw [setTheme_dark, h2]

theorem foldl_osChange_of_truthy (rest : List Bool) :
    ∀ s : TMState, storedTruthy s.storage = true →
      List.foldl osChange s rest = s := by
  induction rest with
  | nil => intro s _; rfl
  | cons r rest ih =>
      intro s h
      show List.foldl osChange (osChange s r) rest = s
      rw [osChange_of_truthy s r h]
      exact ih s h

theorem setThemeE_storageOk (s : TMState) (t : String) (save : Bool) :
    setThemeE s t save true = Except.ok (setTheme s t save) := by
  rw [setThemeE, setTheme]
  split
  · rfl
  · simp

end ThemeToggle

open ThemeToggle

/-- A fresh-page theme-manager state: light theme, no stored preference,
the toggle button present.  Used to instantiate the theme theorems. -/
def tmFresh : TMState :=
  { currentTheme := "light", docDark := false, storage := none,
    btnExists := true, uiTheme := "light", events := [] }

/-- Concrete state for the C2 counterexample: light theme active, nothing
stored, no events yet. -/
def tmC2 : TMState :=
  { currentTheme := "light", docDark := false, storage := none,
    btnExists := true, uiTheme := "light", events := [] }

/-- Concrete state for the C7 counterexample. -/
def tmC7 : TMState :=
  { currentTheme := "light", docDark := false, storage := none,
    btnExists := true, uiTheme := "light", events := [] }

/-- Concrete state for the witness of the amended C7. -/
def tmC7w : TMState :=
  { currentTheme := "dark", docDark := true, storage := some "dark",
    btnExists := false, uiTheme := "dark", events := ["dark"] }

/-- Claim C1: once a user preference has been persisted via
`setTheme(t, persist = true)` (and theme-toggle.js exposes no operation
that clears it), every subsequent OS color-scheme-change event — after any
further sequence of manager events — leaves the manager's state, and in
particular the current theme, unchanged. -/
theorem C1_os_precedence (s : TMState) (t : String) (h : t = "light" ∨ t = "dark")
    (evs : List TMEvent) (m : Bool) :
    osChange (run (setTheme s t true) evs) m = run (setTheme s t true) evs := by
  have hc : ∃ c, themes t = some c := by
    rcases h with h | h <;> subst h
    · exact ⟨_, themes_light⟩
    · exact ⟨_, themes_dark⟩
  obtain ⟨c, hc⟩ := hc
  have h1 : storedTruthy (setTheme s t true).storage = true := by
    rw [setTheme_valid_eq s t c true hc]
    exact storedTruthy_some_valid h
  exact osChange_of_truthy _ m (storedTruthy_run evs _ h1)

/-- Witness for C1 at a concrete state: persist `light`, then an OS change
to dark is ignored. -/
theorem C1_os_precedence_witness :
    osChange (run (setTheme tmFresh "light" true) []) true
      = run (setTheme tmFresh "light" true) [] :=
  C1_os_precedence tmFresh "light" (Or.inl rfl) [] true

/-- Claim C8: for every valid theme value and every state, `setTheme t`
followed by `getCurrentTheme` returns `t`. -/
theorem C8_set_get (s : TMState) (t : String) (h : t = "light" ∨ t = "dark") :
    getCurrentTheme (setTheme s t true) = t := by
  have hc : ∃ c, themes t = some c := by
    rcases h with h | h <;> subst h
    · exact ⟨_, themes_light⟩
    · exact ⟨_, themes_dark⟩
  obtain ⟨c, hc⟩ := hc
  rw [setTheme_valid_eq s t c true hc]
  rfl

/-- Witness for C8 at a concrete state and theme value. -/
theorem C8_set_get_witness : getCurrentTheme (setTheme tmFresh "dark" true) = "dark" :=
  C8_set_get tmFresh "dark" (Or.inr rfl)

/-- Claim C9: in every reachable state (any event sequence from the
fresh-page state), calling `toggleTheme` twice returns both
`getCurrentTheme` and the document's `data-theme` state to their prior
values. -/
theorem C9_toggle_involution (stored : Option String) (btn : Bool) (ui0 : String)
    (evs : List TMEvent) :
    getCurrentTheme (toggleTheme (toggleTheme (run (initState stored btn ui0) evs)))
        = getCurrentTheme (run (initState stored btn ui0) evs) ∧
    (toggleTheme (toggleTheme (run (initState stored btn ui0) evs))).docDark
        = (run (initState stored btn ui0) evs).docDark :=
  toggleTheme_toggleTheme _ (themeInv_run evs _ (themeInv_init stored btn ui0))

/-- Claim C10: with no stored preference, the OS-change handler itself
persists the OS value (persist defaults to true), so after the first OS
event every later OS event leaves the whole state unchanged. -/
theorem C10_os_self_persist (s : TMState) (h : s.storage = none) (m : Bool)
    (rest : List Bool) :
    (osChange s m).storage = some (if m then "dark" else "light") ∧
    List.foldl osChange (osChange s m) rest = osChange s m := by
  have h0 : storedTruthy s.storage = false := by rw [h]; rfl
  have e1 : osChange s m = setTheme s (if m then "dark" else "light") true := by
    rw [osChange, h0]; rfl
  have ht : storedTruthy (osChange s m).storage = true := by
    rw [e1]; cases m
    · show storedTruthy (setTheme s "light" true).storage = true
      rw [setTheme_light]
      show storedTruthy (some "light") = true
      decide
    · show storedTruthy (setTheme s "dark" true).storage = true
      rw [setTheme_dark]
      show storedTruthy (some "dark") = true
      decide
  refine ⟨?_, foldl_osChange_of_truthy rest _ ht⟩
  rw [e1]; cases m
  · show (setTheme s "light" true).storage = some "light"
    rw [setTheme_light]
    rfl
  · show (setTheme s "dark" true).storage = some "dark"
    rw [setTheme_dark]
    rfl

/-- Witness for C10 at a concrete state: first OS event (to dark) persists
`dark`; two further OS events change nothing. -/
theorem C10_os_self_persist_witness :
    (osChange tmFresh true).storage = some (if true then "dark" else "light") ∧
    List.foldl osChange (osChange tmFresh true) [false, true] = osChange tmFresh true :=
  C10_os_self_persist tmFresh rfl true [false, true]

/-- Claim C2 counterexample: in the state `tmC2` the current theme is
`light`, yet `setTheme('light')` is NOT a no-op — it persists `light` to
storage and emits a `themeChanged` event (theme-toggle.js `setTheme` never
compares its argument with the current theme). -/
theorem C2_counterexample :
    getCurrentTheme tmC2 = "light" ∧
    (setTheme tmC2 "light" true).events = ["light"] ∧
    (setTheme tmC2 "light" true).storage = some "light" ∧
    setTheme tmC2 "light" true ≠ tmC2 := by
  decide

/-- Claim C2 amended: `setTheme` with an invalid theme value is a silent
no-op (no state change, no event, no exception — the function is total);
but `setTheme` with the currently active theme is not: it leaves
`currentTheme` unchanged while still appending a `themeChanged` event and,
when `persist` holds, rewriting the stored value. -/
theorem C2_amended_noop :
    (∀ (s : TMState) (t : String) (save : Bool), themes t = none → setTheme s t save = s) ∧
    (∀ (s : TMState) (save : Bool), (themes s.currentTheme).isSome = true →
      (setTheme s s.currentTheme save).currentTheme = s.currentTheme ∧
      (setTheme s s.currentTheme save).events = s.events ++ [s.currentTheme] ∧
      (setTheme s s.currentTheme save).storage =
        if save then some s.currentTheme else s.storage) := by
  constructor
  · intro s t save h
    exact setTheme_invalid s t save h
  · intro s save h
    obtain ⟨c, hc⟩ := Option.isSome_iff_exists.mp h
    rw [setTheme_valid_eq s s.currentTheme c save hc]
    exact ⟨rfl, rfl, rfl⟩

/-- Witness for the amended C2: `blue` is rejected without any change;
re-setting the current theme keeps `currentTheme` as is. -/
theorem C2_amended_noop_witness :
    setTheme tmC2 "blue" true = tmC2 ∧
    (setTheme tmC2 tmC2.currentTheme true).currentTheme = tmC2.currentTheme :=
  ⟨C2_amended_noop.1 tmC2 "blue" true (by decide),
   (C2_amended_noop.2 tmC2 true (by decide)).1⟩

/-- Claim C7 counterexample: when the `localStorage` write throws,
`setTheme` propagates the exception (there is no try/catch in
theme-toggle.js), and the `themeChanged` event is never dispatched nor the
toggle UI updated — unlike the success path, which emits the event. -/
theorem C7_counterexample :
    setThemeE tmC7 "dark" true false =
      Except.error
        { currentTheme := "dark", docDark := true, storage := none,
          btnExists := true, uiTheme := "light", events := [] } ∧
    (setTheme tmC7 "dark" true).events = ["dark"] :=
  ⟨rfl, rfl⟩

/-- Claim C7 amended: a storage-write failure escapes `setTheme` as an
exception; at that point the in-memory `currentTheme` and the document's
`data-theme` attribute are already updated, but storage, the toggle UI and
the `themeChanged` emission are all skipped (the fields of the error state
other than `currentTheme` and `docDark` are those of the input state). -/
theorem C7_amended_throw (s : TMState) (t : String) (h : t = "light" ∨ t = "dark") :
    setThemeE s t true false =
      Except.error
        { s with currentTheme := t,
                 docDark := if t = "dark" then true
                            else if s.currentTheme = "dark" then false else s.docDark } := by
  rcases h with h | h <;> subst h
  · rw [setThemeE, themes_light]
    rw [if_neg (by decide : ¬((some (⟨"浅色模式", "bi-sun-fill", ""⟩ : ThemeConfig)).isNone = true))]
    rw [if_pos (by decide : (true && !false) = true)]
    split_ifs <;> simp_all
  · rw [setThemeE, themes_dark]
    rw [if_neg (by decide : ¬((some (⟨"深色模式", "bi-moon-fill", "dark"⟩ : ThemeConfig)).isNone = true))]
    rw [if_pos (by decide : (true && !false) = true)]
    split_ifs <;> simp_all

/-- Witness for the amended C7 at a concrete dark-mode state. -/
theorem C7_amended_throw_witness :
    setThemeE tmC7w "light" true false =
      Except.error
        { tmC7w with currentTheme := "light",
                     docDark := if ("light" : String) = "dark" then true
                                else if tmC7w.currentTheme = "dark" then false
                                else tmC7w.docDark } :=
  C7_amended_throw tmC7w "light" (Or.inl rfl)

/-!
Lemmas about the responsive layout coordinator, followed by the theorems
settling the claims about it.
-/

namespace Responsive

theorem optimizeForDevice_policyLog (s : RMState) :
    (optimizeForDevice s).policyLog = s.policyLog ++ [s.currentDevice] := by
  cases hd : s.currentDevice <;> simp [optimizeForDevice, hd]

theorem optimizeForDevice_currentDevice (s : RMState) :
    (optimizeForDevice s).currentDevice = s.currentDevice := by
  cases hd : s.currentDevice <;> simp [optimizeForDevice, hd]

theorem handleResize_eq (s : RMState) (w : Nat) :
    handleResize s w =
      if s.currentDevice = detectDevice w then
        { s with doc := { s.doc with width := w }, currentDevice := detectDevice w }
      else
        optimizeForDevice
          { s with doc := { s.doc with width := w }, currentDevice := detectDevice w } := by
  by_cases hd : s.currentDevice = detectDevice w
  · simp [handleResize, hd]
  · simp [handleResize, hd]

theorem handleResize_currentDevice (s : RMState) (w : Nat) :
    (handleResize s w).currentDevice = detectDevice w := by
  rw [handleResize_eq]
  split_ifs with h
  · rfl
  · rw [optimizeForDevice_currentDevice]

theorem handleResize_policyLog (s : RMState) (w : Nat) :
    (handleResize s w).policyLog =
      if s.currentDevice = detectDevice w then s.policyLog
      else s.policyLog ++ [detectDevice w] := by
  rw [handleResize_eq]
  split_ifs with h
  · rfl
  · rw [optimizeForDevice_policyLog]

theorem foldl_handleResize_same_band (d : Device) :
    ∀ (ws : List Nat) (s : RMState), (∀ w ∈ ws, detectDevice w = d) →
      s.currentDevice = d →
      (List.foldl handleResize s ws).policyLog = s.policyLog ∧
      (List.foldl handleResize s ws).currentDevice = d := by
  intro ws
  induction ws with
  | nil => intro s _ hcur; exact ⟨rfl, hcur⟩
  | cons w ws ih =>
      intro s hall hcur
      have hw : detectDevice w = d := hall w (List.mem_cons_self w ws)
      have h1 : (handleResize s w).policyLog = s.policyLog := by
        rw [handleResize_policyLog, if_pos (by rw [hcur, hw])]
      have h2 : (handleResize s w).currentDevice = d := by
        rw [handleResize_currentDevice, hw]
      have h3 := ih (handleResize s w) (fun x hx => hall x (List.mem_cons_of_mem w hx)) h2
      rw [List.foldl_cons]
      exact ⟨by rw [h3.1, h1], h3.2⟩

theorem setSidebarVisibility_eq (doc : Doc) (b : Bool) :
    setSidebarVisibility doc b =
      if doc.sidebarExists = false then doc
      else
        { doc with sidebarOpen := b, sidebarShow := b,
                   overlayVisible :=
                     if doc.overlayExists then b && decide (doc.width ≤ 1024)
                     else doc.overlayVisible,
                   bodySidebarOpen := b && decide (doc.width ≤ 1024) } := by
  cases hse : doc.sidebarExists
  · simp [setSidebarVisibility, hse]
  · cases hoe : doc.overlayExists <;>
      cases hm : (b && decide (doc.width ≤ 1024)) <;>
        simp [setSidebarVisibility, hse, hoe, hm]

theorem showFullSidebar_eq (doc : Doc) :
    showFullSidebar doc =
      if doc.sidebarExists = false then doc
      else
        { doc with sidebarCompact := false, sidebarOpen := true, sidebarShow := true,
                   overlayVisible :=
                     if doc.overlayExists then decide (doc.width ≤ 1024)
                     else doc.overlayVisible,
                   bodySidebarOpen := decide (doc.width ≤ 1024) } := by
  cases hse : doc.sidebarExists
  · simp [showFullSidebar, toggleSidebar, setSidebarVisibility_eq, hse]
  · simp [showFullSidebar, toggleSidebar, setSidebarVisibility_eq, hse]

theorem hideSidebar_eq (doc : Doc) :
    hideSidebar doc =
      if doc.sidebarExists = false then doc
      else
        { doc with sidebarOpen := false, sidebarShow := false,
                   overlayVisible :=
                     if doc.overlayExists then false else doc.overlayVisible,
                   bodySidebarOpen := false } := by
  cases hse : doc.sidebarExists
  · simp [hideSidebar, toggleSidebar, setSidebarVisibility_eq, hse]
  · simp [hideSidebar, toggleSidebar, setSidebarVisibility_eq, hse]

end Responsive

open Responsive

/-- Base document for concrete instantiations: desktop-sized page with
sidebar, overlay and one table present, everything at its defaults. -/
def docBase : Doc :=
  { width := 1920, sidebarExists := true, overlayExists := true,
    sidebarOpen := false, sidebarShow := false, sidebarCompact := false,
    overlayVisible := false, bodySidebarOpen := false, bodyMobile := false,
    bodyTablet := false, bodyDesktop := false, numTables := 1,
    tableResponsive := false, tableWrappers := 0, cardMargin := "",
    cardPadding := "", statCardMargin := "", statCardPadding := "",
    btnPadding := "", btnFont := "", btnMinHeight := "" }

/-- Claim C3: DeviceClass is the stated pure function of viewport width
(bands mobile < 768, tablet < 1024, desktop ≥ 1024), with the six spec
boundary values resolving as claimed. -/
theorem C3_detectDevice :
    (∀ w : Nat,
      (detectDevice w = Device.mobile ↔ w < 768) ∧
      (detectDevice w = Device.tablet ↔ 768 ≤ w ∧ w < 1024) ∧
      (detectDevice w = Device.desktop ↔ 1024 ≤ w)) ∧
    (detectDevice 320 = Device.mobile ∧ detectDevice 767 = Device.mobile ∧
     detectDevice 768 = Device.tablet ∧ detectDevice 1023 = Device.tablet ∧
     detectDevice 1024 = Device.desktop ∧ detectDevice 1920 = Device.desktop) := by
  constructor
  · intro w
    unfold detectDevice breakpoints
    refine ⟨?_, ?_, ?_⟩ <;> split_ifs <;> simp_all
    omega
  · decide

/-- State for the C4 counterexample: the manager already records
`desktop` (its initial value) before the resize burst. -/
def rmC4 : RMState :=
  { currentDevice := Device.desktop, doc := docBase, policyLog := [] }

/-- State for the C4 amended-claim witness: a desktop manager receiving
mobile-band resizes. -/
def rmC4w : RMState :=
  { currentDevice := Device.desktop, doc := docBase, policyLog := [] }

/-- Claim C4 counterexample: the widths 1500 and 1600 both classify as
desktop, yet a resize burst to them from a state already recording
`desktop` invokes the layout policy zero times — not exactly once. -/
theorem C4_counterexample :
    detectDevice 1500 = Device.desktop ∧ detectDevice 1600 = Device.desktop ∧
    (List.foldl handleResize rmC4 [1500, 1600]).policyLog.length = 0 := by
  decide

/-- Claim C4 amended: `handleResize` invokes a layout policy iff the
recomputed DeviceClass differs from the previously recorded one; hence a
sequence of same-band resizes invokes the policy exactly once when the
band differs from the previously recorded class, and zero times when it
is already the recorded class. -/
theorem C4_amended :
    (∀ (s : RMState) (w : Nat),
      ((handleResize s w).policyLog = s.policyLog ↔ detectDevice w = s.currentDevice)) ∧
    (∀ (s : RMState) (d : Device) (ws : List Nat), ws ≠ [] →
      (∀ w ∈ ws, detectDevice w = d) →
      (List.foldl handleResize s ws).policyLog.length =
        s.policyLog.length + (if s.currentDevice = d then 0 else 1)) := by
  constructor
  · intro s w
    rw [handleResize_policyLog]
    split_ifs with h
    · simp [h]
    · constructor
      · intro hh
        exfalso
        have hlen := congrArg List.length hh
        simp at hlen
      · intro hh
        exact absurd hh.symm h
  · intro s d ws hne hall
    cases ws with
    | nil => exact absurd rfl hne
    | cons w ws =>
        have hw : detectDevice w = d := hall w (List.mem_cons_self w ws)
        have hall₂ : ∀ x ∈ ws, detectDevice x = d :=
          fun x hx => hall x (List.mem_cons_of_mem w hx)
        rw [List.foldl_cons]
        by_cases hcur : s.currentDevice = d
        · have h1 : (handleResize s w).policyLog = s.policyLog := by
            rw [handleResize_policyLog, if_pos (by rw [hcur, hw])]
          have h2 : (handleResize s w).currentDevice = d := by
            rw [handleResize_currentDevice, hw]
          rw [(foldl_handleResize_same_band d ws (handleResize s w) hall₂ h2).1, h1,
            if_pos hcur]
          rfl
        · have h1 : (handleResize s w).policyLog = s.policyLog ++ [d] := by
            rw [handleResize_policyLog, if_neg (fun hh => hcur (hh.trans hw)), hw]
          have h2 : (handleResize s w).currentDevice = d := by
            rw [handleResize_currentDevice, hw]
          rw [(foldl_handleResize_same_band d ws (handleResize s w) hall₂ h2).1, h1,
            if_neg hcur]
          simp

/-- Witness for the amended C4: one mobile-band burst from a desktop
state applies the mobile policy exactly once. -/
theorem C4_amended_witness :
    ((handleResize rmC4w 500).policyLog = rmC4w.policyLog ↔
      detectDevice 500 = rmC4w.currentDevice) ∧
    (List.foldl handleResize rmC4w [500, 600]).policyLog.length =
      rmC4w.policyLog.length + (if rmC4w.currentDevice = Device.mobile then 0 else 1) :=
  ⟨C4_amended.1 rmC4w 500,
   C4_amended.2 rmC4w Device.mobile [500, 600] (by decide) (by decide)⟩

/-- Document for the C5 counterexample: one table present. -/
def docC5 : Doc := docBase

/-- Claim C5 counterexample: on a page with one table, applying the
mobile layout policy twice nests the table in two wrapper divs, so the
observable document differs from a single application. -/
theorem C5_counterexample :
    (optimizeForMobile docC5).tableWrappers = 1 ∧
    (optimizeForMobile (optimizeForMobile docC5)).tableWrappers = 2 ∧
    optimizeForMobile (optimizeForMobile docC5) ≠ optimizeForMobile docC5 := by
  decide

/-- Claim C5 amended: the tablet and desktop layout policies are
idempotent; the mobile policy re-applied differs from a single
application exactly in the table wrapping — each run inserts one more
wrapper div around every table (so it is idempotent only on pages with
no tables). -/
theorem C5_amended :
    (∀ d : Doc, optimizeForTablet (optimizeForTablet d) = optimizeForTablet d) ∧
    (∀ d : Doc, optimizeForDesktop (optimizeForDesktop d) = optimizeForDesktop d) ∧
    (∀ d : Doc, optimizeForMobile (optimizeForMobile d) =
      { optimizeForMobile d with
          tableWrappers := (optimizeForMobile d).tableWrappers + d.numTables }) := by
  refine ⟨?_, ?_, ?_⟩
  · intro d
    cases hse : d.sidebarExists
    · simp [optimizeForTablet, showFullSidebar_eq, hse,
        optimizeCardsForTablet, optimizeButtonsForTablet]
    · cases hoe : d.overlayExists <;>
        simp [optimizeForTablet, showFullSidebar_eq, hse, hoe,
          optimizeCardsForTablet, optimizeButtonsForTablet]
  · intro d
    cases hse : d.sidebarExists
    · simp [optimizeForDesktop, showFullSidebar_eq, hse, restoreDefaultLayout]
    · cases hoe : d.overlayExists <;>
        simp [optimizeForDesktop, showFullSidebar_eq, hse, hoe, restoreDefaultLayout]
  · intro d
    by_cases hnt : d.numTables = 0 <;>
      cases hse : d.sidebarExists <;>
        cases hoe : d.overlayExists <;>
          simp [optimizeForMobile, hideSidebar_eq, hse, hoe, hnt,
            optimizeCardsForMobile, optimizeButtonsForMobile, optimizeTablesForMobile]

/-- Document for the C6 counterexample: viewport width exactly 1024,
which `detectDevice` classifies as desktop. -/
def docC6 : Doc := { docBase with width := 1024 }

/-- Document for the witness of the amended C6: width 1500. -/
def docC6w : Doc := { docBase with width := 1500 }

/-- Claim C6 counterexample: width 1024 classifies as desktop, yet
`toggleSidebar(true)` shows the overlay there, because the overlay
condition in `setSidebarVisibility` is `window.innerWidth <= 1024`
(inclusive) while the desktop band is `width >= 1024`. -/
theorem C6_counterexample :
    detectDevice docC6.width = Device.desktop ∧
    docC6.overlayVisible = false ∧
    (toggleSidebar docC6 (some true)).overlayVisible = true := by
  decide

/-- Claim C6 amended: the overlay stays hidden under every `toggleSidebar`
call whenever the viewport is strictly wider than 1024 px; it can be shown
only when `width ≤ 1024` — i.e. on mobile, tablet, or the single desktop
boundary width 1024. -/
theorem C6_amended (doc : Doc) (force : Option Bool) (hw : 1024 < doc.width)
    (hov : doc.overlayVisible = false) :
    (toggleSidebar doc force).overlayVisible = false := by
  have hm : decide (doc.width ≤ 1024) = false := by
    simp only [decide_eq_false_iff_not]
    omega
  cases hse : doc.sidebarExists
  · simp [toggleSidebar, hse, hov]
  · cases hoe : doc.overlayExists <;>
      simp [toggleSidebar, setSidebarVisibility_eq, hse, hoe, hm, hov]

/-- Witness for the amended C6 at width 1500 with a forced open. -/
theorem C6_amended_witness :
    1024 < docC6w.width ∧ (toggleSidebar docC6w (some true)).overlayVisible = false :=
  ⟨by decide, C6_amended docC6w (some true) (by decide) (by decide)⟩
